import Mathlib

/-!
Shallow embedding of the Reolink config flow
(`src/homeassistant/components/reolink/config_flow.py`) and proofs of the
specification's claims about it.

The remote device client (`ReolinkHost` / `host.async_init`) and the host
registry helpers (`async_set_unique_id`, `async_update_entry`,
`_abort_if_unique_id_configured`, reload, options persistence) live outside
`src/`; following the spec they are modelled as explicit data: the client is
a record of its readable fields plus the outcome of `async_init`, and the
registry is a list of config entries threaded through the step function.
-/

namespace ReolinkFlow

/-- Readable fields of the remote device client's api object
(`host.api.username`, `.user_level`, `.port`, `.use_https`, `.nvr_name`)
together with the device unique id (`host.unique_id`). -/
structure ApiInfo where
  username : String
  userLevel : String
  port : Nat
  useHttps : Bool
  nvrName : String
  uniqueId : String
deriving DecidableEq, Repr

/-- Outcome of `await host.async_init()`: success, or one of the exception
classes caught in `async_step_user` (`UserNotAdmin`,
`CredentialsInvalidError`, `ApiError`, `ReolinkError`/`ReolinkException`,
any other `Exception`). The message-bearing constructors carry `str(err)`. -/
inductive InitOutcome where
  | ok : InitOutcome
  | userNotAdmin : InitOutcome
  | credentialsInvalid : InitOutcome
  | apiError (msg : String) : InitOutcome
  | reolinkError (msg : String) : InitOutcome
  | unexpected (msg : String) : InitOutcome
deriving DecidableEq, Repr

/-- The remote device client as `async_step_user` observes it: its api
fields and what `async_init` does. -/
structure RHost where
  api : ApiInfo
  initOutcome : InitOutcome
deriving DecidableEq, Repr

/-- `host.unique_id` delegates to the device identity. -/
def RHost.uniqueId (h : RHost) : String := h.api.uniqueId

/-- The `user_input` dict of step `user`: required username/password/host,
plus the optional `port` / `use_https` override fields that the error-retry
form adds. -/
structure UserInput where
  username : String
  password : String
  host : String
  port : Option Nat
  useHttps : Option Bool
deriving DecidableEq, Repr

/-- Persisted options of a registration: the streaming protocol. -/
structure ReolinkOptions where
  protocol : String
deriving DecidableEq, Repr

/-- Modelled from the spec: the configured default protocol
(`DEFAULT_PROTOCOL` lives in `const.py`, which is not under `src/`; the spec
constrains it to the set \x7brtsp, rtmp, flv\x7d). -/
def DEFAULT_PROTOCOL : String := "rtsp"

/-- `DEFAULT_OPTIONS = {CONF_PROTOCOL: DEFAULT_PROTOCOL}`. -/
def DEFAULT_OPTIONS : ReolinkOptions := { protocol := DEFAULT_PROTOCOL }

/-- A persisted registration in the host registry: keyed by `uniqueId`,
holding a title, `data` and `options`. `entryId` is the registry handle
used for reloads. -/
structure ConfigEntry where
  entryId : Nat
  uniqueId : String
  title : String
  data : UserInput
  options : ReolinkOptions
deriving DecidableEq, Repr

/-- The mutable fields of `ReolinkFlowHandler`: `_host`, `_username`,
`_password`, `_reauth`. -/
structure FlowState where
  hostDefault : Option String
  usernameDefault : String
  passwordDefault : Option String
  reauth : Bool
deriving DecidableEq, Repr

/-- `ReolinkFlowHandler.__init__`. -/
def initialFlowState : FlowState :=
  { hostDefault := none
    usernameDefault := "admin"
    passwordDefault := none
    reauth := false }

/-- The schema of the `user` form: defaults for the three required fields,
and whether the optional `port` / `use_https` override fields were added
(they are added exactly when the step has errors). -/
structure FormSchemaUser where
  defaultUsername : String
  defaultPassword : Option String
  defaultHost : Option String
  portOverride : Bool
deriving DecidableEq, Repr

/-- The discriminated result a step returns to the host platform. -/
inductive StepResult where
  | showForm (stepId : String) (schema : FormSchemaUser)
      (errors : List (String × String))
      (placeholders : List (String × String)) : StepResult
  | createEntry (title : String) (data : UserInput)
      (options : ReolinkOptions) : StepResult
  | abort (reason : String) : StepResult
deriving DecidableEq, Repr

/-- Everything one invocation of step `user` does: the returned result, the
registry afterwards, how many times `host.stop()` ran, and which entry (if
any) was reloaded. -/
structure StepEffects where
  result : StepResult
  registry : List ConfigEntry
  stops : Nat
  reloaded : Option Nat
deriving DecidableEq, Repr

/-- The `errors` dict produced by the try/except cascade of
`async_step_user` (lines 98-115). -/
def errorsOf (h : RHost) : List (String × String) :=
  match h.initOutcome with
  | .ok => []
  | .userNotAdmin => [("username", "not_admin")]
  | .credentialsInvalid => [("host", "invalid_auth")]
  | .apiError _ => [("host", "api_error")]
  | .reolinkError _ => [("host", "cannot_connect")]
  | .unexpected _ => [("host", "unknown")]

/-- The `placeholders` dict after the try/except cascade: it starts as
`{"error": ""}`; the not-admin branch adds the observed username and user
level, the message-bearing branches overwrite `"error"` with `str(err)`. -/
def placeholdersOf (h : RHost) : List (String × String) :=
  match h.initOutcome with
  | .ok => [("error", "")]
  | .userNotAdmin =>
      [("error", ""), ("username", h.api.username),
        ("userlevel", h.api.userLevel)]
  | .credentialsInvalid => [("error", "")]
  | .apiError msg => [("error", msg)]
  | .reolinkError msg => [("error", msg)]
  | .unexpected msg => [("error", msg)]

/-- Modelled from the spec: `setUniqueId(id) -> existingRegistrationOrNone`
(`async_set_unique_id` is host-registry code not under `src/`): look up the
persisted registration with the given unique id. -/
def findEntry (registry : List ConfigEntry) (uid : String) :
    Option ConfigEntry :=
  registry.find? (fun e => e.uniqueId == uid)

/-- Lines 120-121: `user_input[CONF_PORT] = host.api.port` and
`user_input[CONF_USE_HTTPS] = host.api.use_https` — the client's observed
values overwrite whatever the form submitted. -/
def mergeApiData (u : UserInput) (api : ApiInfo) : UserInput :=
  { u with port := some api.port, useHttps := some api.useHttps }

/-- Modelled from the spec:
`updateRegistrationData(existing, newData) -> changed: bool`
(`async_update_entry` is host-registry code not under `src/`): replace the
entry's data in the registry and report whether anything changed. -/
def async_update_entry (registry : List ConfigEntry) (e : ConfigEntry)
    (newData : UserInput) : List ConfigEntry × Bool :=
  (registry.map (fun x =>
      if x.entryId = e.entryId then { x with data := newData } else x),
    decide (newData ≠ e.data))

/-- The base form schema of step `user` (lines 142-148), extended with the
optional override fields when `errors` is non-empty (lines 149-155). The
defaults come from the flow state, not from the submitted input. -/
def userFormSchema (flow : FlowState) (overrideFields : Bool) :
    FormSchemaUser :=
  { defaultUsername := flow.usernameDefault
    defaultPassword := flow.passwordDefault
    defaultHost := flow.hostDefault
    portOverride := overrideFields }

/-- `ReolinkFlowHandler.async_step_user`. The environment is a function
`mkHost` from the submitted input to the client it produces (line 97 plus
the behaviour of `async_init`). The `finally: await host.stop()` block is
reflected by `stops := 1` on every path that constructed the client.
`_abort_if_unique_id_configured(updates=...)` is host-registry code not
under `src/` and is modelled from the spec as aborting with
`already_configured` when the unique id is registered, leaving the registry
untouched. -/
def async_step_user (flow : FlowState) (registry : List ConfigEntry)
    (mkHost : UserInput → RHost) (input : Option UserInput) : StepEffects :=
  match input with
  | none =>
      { result := .showForm "user" (userFormSchema flow false) []
          [("error", "")]
        registry := registry
        stops := 0
        reloaded := none }
  | some u =>
      let host := mkHost u
      let errors := errorsOf host
      let placeholders := placeholdersOf host
      if errors.isEmpty then
        let data := mergeApiData u host.api
        match findEntry registry host.uniqueId with
        | some existing =>
            if flow.reauth then
              let updated := async_update_entry registry existing data
              { result := .abort "reauth_successful"
                registry := updated.1
                stops := 1
                reloaded :=
                  if updated.2 then some existing.entryId else none }
            else
              { result := .abort "already_configured"
                registry := registry
                stops := 1
                reloaded := none }
        | none =>
            { result := .createEntry host.api.nvrName data DEFAULT_OPTIONS
              registry := registry
              stops := 1
              reloaded := none }
      else
        { result := .showForm "user"
            (userFormSchema flow (!errors.isEmpty)) errors placeholders
          registry := registry
          stops := 1
          reloaded := none }

/-- `ReolinkFlowHandler.async_step_reauth`: seed the attempt's defaults
from the existing registration's data and mark the attempt as a reauth. -/
def async_step_reauth (entryData : UserInput) (flow : FlowState) :
    FlowState :=
  { flow with
      hostDefault := some entryData.host
      usernameDefault := entryData.username
      passwordDefault := some entryData.password
      reauth := true }

/-- Result of the options flow's `init` step. -/
inductive OptionsResult where
  | showForm (defaultProtocol : String) : OptionsResult
  | createEntry (data : ReolinkOptions) : OptionsResult
deriving DecidableEq, Repr

/-- `ReolinkOptionsFlowHandler.async_step_init`: with input, terminate
successfully with the input as entry data; otherwise show the one-field
form defaulted to the currently persisted protocol. -/
def options_step_init (current : ReolinkOptions)
    (input : Option ReolinkOptions) : OptionsResult :=
  match input with
  | some o => .createEntry o
  | none => .showForm current.protocol

/-- Modelled from the spec: "If input is present, persist it verbatim as
the new options" — how the host platform persists the options flow's
`createEntry` result (that persistence code is not under `src/`). -/
def persistOptions (current : ReolinkOptions) (r : OptionsResult) :
    ReolinkOptions :=
  match r with
  | .createEntry o => o
  | .showForm _ => current

/-! Concrete fixtures used by witnesses and counterexamples. -/

/-- A concrete device identity. -/
def sampleApi : ApiInfo :=
  { username := "admin"
    userLevel := "admin"
    port := 443
    useHttps := true
    nvrName := "NVR"
    uniqueId := "UID1" }

/-- A client whose handshake succeeds. -/
def okHost : RHost := { api := sampleApi, initOutcome := .ok }

/-- A client whose handshake raises `CredentialsInvalidError`. -/
def credFailHost : RHost :=
  { api := sampleApi, initOutcome := .credentialsInvalid }

/-- A client whose handshake raises `ApiError("500")`. -/
def apiErrHost : RHost := { api := sampleApi, initOutcome := .apiError "500" }

/-- A concrete submitted form input. -/
def bobInput : UserInput :=
  { username := "bob"
    password := "pw"
    host := "192.168.1.50"
    port := none
    useHttps := none }

/-- A flow state with the reauth flag set. -/
def reauthFlowState : FlowState := { initialFlowState with reauth := true }

/-- A persisted registration whose unique id matches `sampleApi`. -/
def sampleEntry : ConfigEntry :=
  { entryId := 7
    uniqueId := "UID1"
    title := "NVR"
    data :=
      { username := "old"
        password := "oldpw"
        host := "10.0.0.2"
        port := some 8000
        useHttps := some false }
    options := { protocol := "rtsp" } }

/-! The claims. -/

/-- C1: a successful non-reauth handshake whose unique id matches a
persisted registration terminates with abort(already_configured), and the
registry (its data and options included) is unchanged. -/
theorem user_duplicate_nonreauth_aborts_untouched
    (flow : FlowState) (registry : List ConfigEntry)
    (mkHost : UserInput → RHost) (u : UserInput) (e : ConfigEntry)
    (hok : (mkHost u).initOutcome = .ok)
    (hre : flow.reauth = false)
    (hdup : findEntry registry (mkHost u).uniqueId = some e) :
    (async_step_user flow registry mkHost (some u)).result =
        .abort "already_configured" ∧
    (async_step_user flow registry mkHost (some u)).registry = registry := by
  unfold async_step_user
  simp [errorsOf, hok, hdup, hre]

/-- C1 witness: concrete duplicate, non-reauth. -/
theorem user_duplicate_nonreauth_aborts_untouched_witness :
    ((fun _ => okHost) bobInput).initOutcome = InitOutcome.ok ∧
    initialFlowState.reauth = false ∧
    findEntry [sampleEntry] ((fun _ => okHost) bobInput).uniqueId =
      some sampleEntry ∧
    ((async_step_user initialFlowState [sampleEntry] (fun _ => okHost)
        (some bobInput)).result = .abort "already_configured" ∧
      (async_step_user initialFlowState [sampleEntry] (fun _ => okHost)
        (some bobInput)).registry = [sampleEntry]) :=
  ⟨by decide, by decide, by decide,
    user_duplicate_nonreauth_aborts_untouched initialFlowState [sampleEntry]
      (fun _ => okHost) bobInput sampleEntry (by decide) (by decide)
      (by decide)⟩

/-- C3: a successful reauth handshake whose unique id matches a persisted
registration overwrites that registration's data with the merged input,
reloads it exactly when the data changed, and aborts with
reauth_successful — never a createEntry. -/
theorem user_reauth_duplicate_updates_and_aborts
    (flow : FlowState) (registry : List ConfigEntry)
    (mkHost : UserInput → RHost) (u : UserInput) (e : ConfigEntry)
    (hok : (mkHost u).initOutcome = .ok)
    (hre : flow.reauth = true)
    (hdup : findEntry registry (mkHost u).uniqueId = some e) :
    (async_step_user flow registry mkHost (some u)).result =
        .abort "reauth_successful" ∧
    (async_step_user flow registry mkHost (some u)).registry =
      registry.map (fun x =>
        if x.entryId = e.entryId
        then { x with data := mergeApiData u (mkHost u).api } else x) ∧
    (async_step_user flow registry mkHost (some u)).reloaded =
      (if mergeApiData u (mkHost u).api = e.data then none
        else some e.entryId) ∧
    (∀ t d o, (async_step_user flow registry mkHost (some u)).result ≠
        .createEntry t d o) := by
  unfold async_step_user
  by_cases hch : mergeApiData u (mkHost u).api = e.data <;>
    simp [errorsOf, hok, hdup, hre, async_update_entry, hch]

/-- C3 witness: concrete duplicate, reauth, with changed data (so a reload
of entry 7 fires). -/
theorem user_reauth_duplicate_updates_and_aborts_witness :
    ((fun _ => okHost) bobInput).initOutcome = InitOutcome.ok ∧
    reauthFlowState.reauth = true ∧
    findEntry [sampleEntry] ((fun _ => okHost) bobInput).uniqueId =
      some sampleEntry ∧
    ((async_step_user reauthFlowState [sampleEntry] (fun _ => okHost)
        (some bobInput)).result = .abort "reauth_successful" ∧
      (async_step_user reauthFlowState [sampleEntry] (fun _ => okHost)
        (some bobInput)).registry =
        [sampleEntry].map (fun x =>
          if x.entryId = sampleEntry.entryId
          then { x with data := mergeApiData bobInput okHost.api } else x) ∧
      (async_step_user reauthFlowState [sampleEntry] (fun _ => okHost)
        (some bobInput)).reloaded =
        (if mergeApiData bobInput okHost.api = sampleEntry.data then none
          else some sampleEntry.entryId) ∧
      (∀ t d o, (async_step_user reauthFlowState [sampleEntry]
          (fun _ => okHost) (some bobInput)).result ≠
          .createEntry t d o)) :=
  ⟨by decide, by decide, by decide,
    user_reauth_duplicate_updates_and_aborts reauthFlowState [sampleEntry]
      (fun _ => okHost) bobInput sampleEntry (by decide) (by decide)
      (by decide)⟩

/-- C5: a successful handshake with a novel unique id produces exactly a
createEntry whose title is the client's nvrName, whose data carries the
client's observed port and useHttps, and whose options are the defaults;
the registry is not touched and nothing is reloaded. -/
theorem user_new_device_creates_entry
    (flow : FlowState) (registry : List ConfigEntry)
    (mkHost : UserInput → RHost) (u : UserInput)
    (hok : (mkHost u).initOutcome = .ok)
    (hnone : findEntry registry (mkHost u).uniqueId = none) :
    (async_step_user flow registry mkHost (some u)).result =
      .createEntry (mkHost u).api.nvrName
        { u with
            port := some (mkHost u).api.port
            useHttps := some (mkHost u).api.useHttps }
        DEFAULT_OPTIONS ∧
    (async_step_user flow registry mkHost (some u)).registry = registry ∧
    (async_step_user flow registry mkHost (some u)).reloaded = none := by
  unfold async_step_user
  simp [errorsOf, hok, hnone, mergeApiData]

/-- C5 witness: concrete novel device on an empty registry. -/
theorem user_new_device_creates_entry_witness :
    ((fun _ => okHost) bobInput).initOutcome = InitOutcome.ok ∧
    findEntry [] ((fun _ => okHost) bobInput).uniqueId = none ∧
    ((async_step_user initialFlowState [] (fun _ => okHost)
        (some bobInput)).result =
      .createEntry okHost.api.nvrName
        { bobInput with
            port := some okHost.api.port
            useHttps := some okHost.api.useHttps }
        DEFAULT_OPTIONS ∧
      (async_step_user initialFlowState [] (fun _ => okHost)
        (some bobInput)).registry = [] ∧
      (async_step_user initialFlowState [] (fun _ => okHost)
        (some bobInput)).reloaded = none) :=
  ⟨by decide, by decide,
    user_new_device_creates_entry initialFlowState [] (fun _ => okHost)
      bobInput (by decide) (by decide)⟩

/-- C6: on every path of step `user` that constructed the client (i.e. got
input), `host.stop()` runs exactly once before the step returns. -/
theorem user_stop_called_exactly_once
    (flow : FlowState) (registry : List ConfigEntry)
    (mkHost : UserInput → RHost) (u : UserInput) :
    (async_step_user flow registry mkHost (some u)).stops = 1 := by
  unfold async_step_user
  cases h : (mkHost u).initOutcome <;>
    simp [errorsOf, h]
  cases hf : findEntry registry (mkHost u).uniqueId <;>
    simp [hf]
  cases hr : flow.reauth <;> simp [hr]

/-- C7: submitting the options step with the same protocol twice is
idempotent: the persisted options after the second submission equal those
after the first, and both submissions return a successful terminal
result. -/
theorem options_init_idempotent (cur o : ReolinkOptions) :
    persistOptions (persistOptions cur (options_step_init cur (some o)))
        (options_step_init
          (persistOptions cur (options_step_init cur (some o))) (some o)) =
      persistOptions cur (options_step_init cur (some o)) ∧
    options_step_init cur (some o) = .createEntry o ∧
    options_step_init
        (persistOptions cur (options_step_init cur (some o))) (some o) =
      .createEntry o :=
  ⟨rfl, rfl, rfl⟩

/-- C8: a successful handshake with the reauth flag set but no matching
persisted registration falls through to a createEntry with default
options; nothing is updated or reloaded and no abort occurs. -/
theorem user_reauth_without_entry_creates
    (flow : FlowState) (registry : List ConfigEntry)
    (mkHost : UserInput → RHost) (u : UserInput)
    (hok : (mkHost u).initOutcome = .ok)
    (_hre : flow.reauth = true)
    (hnone : findEntry registry (mkHost u).uniqueId = none) :
    (async_step_user flow registry mkHost (some u)).result =
      .createEntry (mkHost u).api.nvrName
        { u with
            port := some (mkHost u).api.port
            useHttps := some (mkHost u).api.useHttps }
        DEFAULT_OPTIONS ∧
    (async_step_user flow registry mkHost (some u)).registry = registry ∧
    (async_step_user flow registry mkHost (some u)).reloaded = none ∧
    (∀ r, (async_step_user flow registry mkHost (some u)).result ≠
        .abort r) := by
  unfold async_step_user
  simp [errorsOf, hok, hnone, mergeApiData]

/-- C8 witness: reauth flag set, empty registry. -/
theorem user_reauth_without_entry_creates_witness :
    ((fun _ => okHost) bobInput).initOutcome = InitOutcome.ok ∧
    reauthFlowState.reauth = true ∧
    findEntry [] ((fun _ => okHost) bobInput).uniqueId = none ∧
    ((async_step_user reauthFlowState [] (fun _ => okHost)
        (some bobInput)).result =
      .createEntry okHost.api.nvrName
        { bobInput with
            port := some okHost.api.port
            useHttps := some okHost.api.useHttps }
        DEFAULT_OPTIONS ∧
      (async_step_user reauthFlowState [] (fun _ => okHost)
        (some bobInput)).registry = [] ∧
      (async_step_user reauthFlowState [] (fun _ => okHost)
        (some bobInput)).reloaded = none ∧
      (∀ r, (async_step_user reauthFlowState [] (fun _ => okHost)
          (some bobInput)).result ≠ .abort r)) :=
  ⟨by decide, by decide, by decide,
    user_reauth_without_entry_creates reauthFlowState [] (fun _ => okHost)
      bobInput (by decide) (by decide) (by decide)⟩

/-- C2 counterexample: a fresh (non-reauth) flow submits
username "bob" / password "pw" / host "192.168.1.50" and the handshake
fails; the redisplayed form's defaults are the flow state's seeds
("admin", none, none) — lines 142-148 read `self._username` /
`self._password` / `self._host`, which `async_step_user` never updates from
the submitted input — so the just-submitted values are NOT carried as
defaults. -/
theorem user_failure_defaults_counterexample :
    (async_step_user initialFlowState [] (fun _ => credFailHost)
        (some bobInput)).result =
      .showForm "user"
        { defaultUsername := "admin"
          defaultPassword := none
          defaultHost := none
          portOverride := true }
        [("host", "invalid_auth")] [("error", "")] ∧
    ("admin" : String) ≠ bobInput.username ∧
    (none : Option String) ≠ some bobInput.password ∧
    (none : Option String) ≠ some bobInput.host := by
  decide

/-- C2 (amended): on every input whose handshake fails, step `user`
returns a showForm with a non-empty errors mapping, whose defaults are the
flow state's stored seed values (initially "admin"/none/none, or the
reauth-seeded registration data) together with the added optional
override fields — not the just-submitted input. -/
theorem user_failure_shows_form_with_flow_defaults
    (flow : FlowState) (registry : List ConfigEntry)
    (mkHost : UserInput → RHost) (u : UserInput)
    (hfail : (mkHost u).initOutcome ≠ .ok) :
    (async_step_user flow registry mkHost (some u)).result =
      .showForm "user" (userFormSchema flow true) (errorsOf (mkHost u))
        (placeholdersOf (mkHost u)) ∧
    errorsOf (mkHost u) ≠ [] := by
  unfold async_step_user
  cases h : (mkHost u).initOutcome <;>
    simp [errorsOf, placeholdersOf, h] at hfail ⊢

/-- C2 (amended) witness: concrete failing handshake on a fresh flow. -/
theorem user_failure_shows_form_with_flow_defaults_witness :
    ((fun _ => credFailHost) bobInput).initOutcome ≠ InitOutcome.ok ∧
    ((async_step_user initialFlowState [] (fun _ => credFailHost)
        (some bobInput)).result =
      .showForm "user" (userFormSchema initialFlowState true)
        (errorsOf credFailHost) (placeholdersOf credFailHost) ∧
      errorsOf credFailHost ≠ []) :=
  ⟨by decide,
    user_failure_shows_form_with_flow_defaults initialFlowState []
      (fun _ => credFailHost) bobInput (by decide)⟩

/-- C4: every handshake failure is classified into exactly one of the
five taxonomy codes on the prescribed field, the device's api-error
message is surfaced as the "error" placeholder, and the step returns a
showForm result instead of propagating the exception. -/
theorem user_failure_error_taxonomy
    (flow : FlowState) (registry : List ConfigEntry)
    (mkHost : UserInput → RHost) (u : UserInput)
    (hfail : (mkHost u).initOutcome ≠ .ok) :
    (async_step_user flow registry mkHost (some u)).result =
      .showForm "user" (userFormSchema flow true)
        (match (mkHost u).initOutcome with
          | .ok => []
          | .userNotAdmin => [("username", "not_admin")]
          | .credentialsInvalid => [("host", "invalid_auth")]
          | .apiError _ => [("host", "api_error")]
          | .reolinkError _ => [("host", "cannot_connect")]
          | .unexpected _ => [("host", "unknown")])
        (placeholdersOf (mkHost u)) ∧
    ((mkHost u).initOutcome = .userNotAdmin →
      placeholdersOf (mkHost u) =
        [("error", ""), ("username", (mkHost u).api.username),
          ("userlevel", (mkHost u).api.userLevel)]) ∧
    (∀ msg, (mkHost u).initOutcome = .apiError msg →
      ("error", msg) ∈ placeholdersOf (mkHost u)) := by
  unfold async_step_user
  cases h : (mkHost u).initOutcome <;>
    simp [errorsOf, placeholdersOf, h] at hfail ⊢

/-- C4 witness: concrete device api error with message "500". -/
theorem user_failure_error_taxonomy_witness :
    ((fun _ => apiErrHost) bobInput).initOutcome ≠ InitOutcome.ok ∧
    ((async_step_user initialFlowState [] (fun _ => apiErrHost)
        (some bobInput)).result =
      .showForm "user" (userFormSchema initialFlowState true)
        [("host", "api_error")] (placeholdersOf apiErrHost) ∧
    (apiErrHost.initOutcome = .userNotAdmin →
      placeholdersOf apiErrHost =
        [("error", ""), ("username", apiErrHost.api.username),
          ("userlevel", apiErrHost.api.userLevel)]) ∧
    (∀ msg, apiErrHost.initOutcome = .apiError msg →
      ("error", msg) ∈ placeholdersOf apiErrHost)) :=
  ⟨by decide,
    user_failure_error_taxonomy initialFlowState [] (fun _ => apiErrHost)
      bobInput (by decide)⟩

/-- C9: every showForm result of step `user` carries at most one error,
keyed by either the username field or the host field. -/
theorem user_form_errors_at_most_one
    (flow : FlowState) (registry : List ConfigEntry)
    (mkHost : UserInput → RHost) (input : Option UserInput)
    (stepId : String) (sch : FormSchemaUser)
    (errs phs : List (String × String))
    (hshow : (async_step_user flow registry mkHost input).result =
      .showForm stepId sch errs phs) :
    errs.length ≤ 1 ∧
    (∀ f c, (f, c) ∈ errs → f = "username" ∨ f = "host") := by
  cases input with
  | none =>
      unfold async_step_user at hshow
      simp at hshow
      obtain ⟨-, -, he, -⟩ := hshow
      subst he
      simp
  | some u =>
      cases h : (mkHost u).initOutcome
      case ok =>
        unfold async_step_user at hshow
        simp [errorsOf, h] at hshow
        cases hf : findEntry registry (mkHost u).uniqueId <;>
          rw [hf] at hshow
        · simp at hshow
        · cases hr : flow.reauth <;> simp [hr] at hshow
      all_goals
        unfold async_step_user at hshow
        simp [errorsOf, placeholdersOf, h] at hshow
        obtain ⟨-, -, he, -⟩ := hshow
        subst he
        refine ⟨by decide, ?_⟩
        rintro f c hm
        simp at hm
        rcases hm with ⟨rfl, -⟩
        decide

/-- C9 witness: the initial (no input) form has an empty errors mapping. -/
theorem user_form_errors_at_most_one_witness :
    ([] : List (String × String)).length ≤ 1 ∧
    (∀ f c, (f, c) ∈ ([] : List (String × String)) →
      f = "username" ∨ f = "host") :=
  user_form_errors_at_most_one initialFlowState [] (fun _ => okHost) none
    "user" (userFormSchema initialFlowState false) [] [("error", "")] rfl

/-- C10: on a successful handshake, whatever gets persisted carries the
client's observed port and useHttps: a createEntry result's data has them,
and any registry entry the step rewrote has them — regardless of any
user-supplied port / use_https override fields in the input. -/
theorem user_success_client_values_overwrite
    (flow : FlowState) (registry : List ConfigEntry)
    (mkHost : UserInput → RHost) (u : UserInput)
    (hok : (mkHost u).initOutcome = .ok) :
    (∀ t d o,
      (async_step_user flow registry mkHost (some u)).result =
        .createEntry t d o →
      d.port = some (mkHost u).api.port ∧
      d.useHttps = some (mkHost u).api.useHttps) ∧
    (∀ e, e ∈ (async_step_user flow registry mkHost (some u)).registry →
      e ∈ registry ∨
      (e.data.port = some (mkHost u).api.port ∧
        e.data.useHttps = some (mkHost u).api.useHttps)) := by
  unfold async_step_user
  cases hf : findEntry registry (mkHost u).uniqueId with
  | none =>
      simp [errorsOf, hok, hf, mergeApiData]
      intro e he
      exact Or.inl he
  | some e0 =>
      cases hr : flow.reauth with
      | false =>
          simp [errorsOf, hok, hf, hr]
          intro e he
          exact Or.inl he
      | true =>
          simp [errorsOf, hok, hf, hr, async_update_entry]
          intro e he
          by_cases hid : e.entryId = e0.entryId
          · exact Or.inr (by simp [hid, mergeApiData])
          · rw [if_neg hid]
            exact Or.inl he

/-- C10 witness: concrete successful handshake with a matching reauth
entry, so the registry rewrite path is exercised. -/
theorem user_success_client_values_overwrite_witness :
    ((fun _ => okHost) bobInput).initOutcome = InitOutcome.ok ∧
    ((∀ t d o,
        (async_step_user reauthFlowState [sampleEntry] (fun _ => okHost)
          (some bobInput)).result = .createEntry t d o →
        d.port = some okHost.api.port ∧
        d.useHttps = some okHost.api.useHttps) ∧
      (∀ e, e ∈ (async_step_user reauthFlowState [sampleEntry]
          (fun _ => okHost) (some bobInput)).registry →
        e ∈ [sampleEntry] ∨
        (e.data.port = some okHost.api.port ∧
          e.data.useHttps = some okHost.api.useHttps))) :=
  ⟨by decide,
    user_success_client_values_overwrite reauthFlowState [sampleEntry]
      (fun _ => okHost) bobInput (by decide)⟩

end ReolinkFlow
